import Mathlib

/-!
# Verification of the AI text-lookup extension's query dispatcher

Shallow embedding of the background service worker of the
`aihelp-extension` repository (`src/background.js`, and the unnamed
parts: `part_001` is the Gemini variant with the custom-question flow,
`part_002` the Groq variant).  Network effects are modelled by an
oracle `env : String → FetchOutcome` giving, for each model name, the
outcome the single `fetch` to that model would produce; the dispatcher
is a pure function of the stored settings and that oracle, returning
the `QueryResult` together with the ordered trace of models it actually
called.  Request construction (method, headers, JSON body) is modelled
separately by builder functions, one per provider.
-/

namespace AIHelp

/-- Outcome of one `fetch` to the provider, as seen by `makeAPICall`
(`src/background.js` lines 38-91):
* `transport msg` — `fetch` (or body parsing of an ok response) threw;
  `msg` is `error.message` when present (JS: a missing or empty message
  is falsy);
* `http status errMsg textBody` — an HTTP response arrived with the
  given status; `errMsg` is the structured `error.message` of the body
  when the body parses to one (relevant on non-2xx), and `textBody` is
  the payload text field `candidates[0].content.parts[0].text` when
  present (relevant on 2xx). -/
inductive FetchOutcome where
  | transport (msg : Option String)
  | http (status : Nat) (errMsg : Option String) (textBody : Option String)
  deriving Repr, DecidableEq

/-- The result record flowing back over the message bridge
(spec §3 `QueryResult`; the JS objects built in `src/background.js`).
Absent JS fields are `none`. -/
structure QueryResult where
  success : Bool
  response : Option String := none
  error : Option String := none
  modelUsed : Option String := none
  statusCode : Option Nat := none
  deriving Repr, DecidableEq

/-- JS `x || d` for a possibly-absent string `x`: the default is taken
when `x` is absent or empty (both falsy). -/
def jsOrStr (x : Option String) (d : String) : String :=
  match x with
  | none => d
  | some s => if s.isEmpty then d else s

/-- JS `x || null` for a possibly-absent string: an empty string
collapses to `null` (used by `getSettings`, `src/background.js` 7-16). -/
def jsStrOrNone (x : Option String) : Option String :=
  match x with
  | none => none
  | some s => if s.isEmpty then none else some s

/-- `response.ok`: status in the inclusive range 200-299. -/
def isOk (status : Nat) : Bool :=
  200 ≤ status && status ≤ 299

/-- JS `String.prototype.trim`: drop leading and trailing whitespace.
Modelled on the character list so that it is executable by `decide`. -/
def jsTrim (s : String) : String :=
  ⟨((s.data.dropWhile Char.isWhitespace).reverse.dropWhile Char.isWhitespace).reverse⟩

/-- `makeAPICall` (`src/background.js` 34-92), response classification:
transport failure → error data; non-ok status → structured body message
or the generic message, plus the status code; ok status → the trimmed
payload text when non-empty, else the no-response error. -/
def makeAPICall (o : FetchOutcome) : QueryResult :=
  match o with
  | .transport msg =>
    { success := false, error := some (jsOrStr msg "Network error occurred") }
  | .http status errMsg textBody =>
    if !isOk status then
      { success := false
        error := some (jsOrStr errMsg ("API request failed with status " ++ toString status))
        statusCode := some status }
    else
      match textBody.map jsTrim with
      | some t =>
        if t.isEmpty then
          { success := false, error := some "No response received from AI" }
        else
          { success := true, response := some t }
      | none =>
        { success := false, error := some "No response received from AI" }

/-- `makeCustomAPICall` (`part_001` 242-301) classifies its response
exactly as `makeAPICall` does — the two differ only in the request body
they send, which is modelled by the request builders below. -/
def makeCustomAPICall : FetchOutcome → QueryResult := makeAPICall

/-- The fixed fallback list `AVAILABLE_MODELS` (`src/background.js` 21-25). -/
def AVAILABLE_MODELS : List String :=
  ["gemini-2.5-flash-lite", "gemini-2.5-flash", "gemini-3-flash-preview"]

/-- Default model used when none is stored (`src/background.js` 12). -/
def defaultModel : String := "gemini-2.5-flash-lite"

/-- The model `getSettings` resolves from storage:
`result.geminiModel || "gemini-2.5-flash-lite"`. -/
def selectedModelOf (storedModel : Option String) : String :=
  jsOrStr storedModel defaultModel

/-- Error message returned when no API key is configured
(`src/background.js` 104-110). -/
def apiKeyNotConfiguredMsg : String :=
  "API key not configured. Right-click the extension icon → Options to set your API key."

/-- Fallback error message of the final failure return
(`src/background.js` 158). -/
def failedMsg : String := "Failed to get AI response"

/-- A rate-limited failed attempt: the fallback loop continues past
exactly these. -/
def fails429 (r : QueryResult) : Prop :=
  r.success = false ∧ r.statusCode = some 429

instance (r : QueryResult) : Decidable (fails429 r) := by
  unfold fails429
  infer_instance

/-- The `for (const fallbackModel of fallbackModels)` loop of
`getAIResponse` (`src/background.js` 134-151), abstracted over the
per-model call (`makeAPICall` there, `makeCustomAPICall` in `part_001`
344-361, whose loop is textually identical).  Returns the value of the
JS variable `result` after the loop, `some m` when the loop returned
from inside with success on model `m` (`none` when it fell through or
broke), and the ordered list of models actually called. -/
def fallbackLoop (call : FetchOutcome → QueryResult) (env : String → FetchOutcome) :
    List String → QueryResult → QueryResult × Option String × List String
  | [], prev => (prev, none, [])
  | m :: rest, _ =>
    let r := call (env m)
    if r.success then
      (r, some m, [m])
    else if r.statusCode ≠ some 429 then
      (r, none, [m])
    else
      let out := fallbackLoop call env rest r
      (out.1, out.2.1, m :: out.2.2)

/-- `getAIResponse` (`src/background.js` 100-167), abstracted over the
per-model call so that `getCustomAIResponse` (`part_001` 310-377, a
textual copy up to the call and prompt) is the same function.  Returns
the `QueryResult` sent back plus the ordered trace of models for which
an HTTP call was issued.  The JS spread `{...result, modelUsed}` is the
record update. -/
def dispatch (call : FetchOutcome → QueryResult)
    (storedKey storedModel : Option String) (env : String → FetchOutcome) :
    QueryResult × List String :=
  match jsStrOrNone storedKey with
  | none =>
    ({ success := false, error := some apiKeyNotConfiguredMsg }, [])
  | some _ =>
    let selectedModel := selectedModelOf storedModel
    let result := call (env selectedModel)
    if result.success then
      ({ result with modelUsed := some selectedModel }, [selectedModel])
    else if result.statusCode = some 429 then
      let fallbackModels := AVAILABLE_MODELS.filter (fun m => m != selectedModel)
      let out := fallbackLoop call env fallbackModels result
      match out.2.1 with
      | some m =>
        ({ out.1 with modelUsed := some m }, selectedModel :: out.2.2)
      | none =>
        ({ success := false, error := some (jsOrStr out.1.error failedMsg) },
          selectedModel :: out.2.2)
    else
      ({ success := false, error := some (jsOrStr result.error failedMsg) },
        [selectedModel])

/-- `getAIResponse` of `src/background.js`. -/
def getAIResponse : Option String → Option String → (String → FetchOutcome) →
    QueryResult × List String :=
  dispatch makeAPICall

/-- `getCustomAIResponse` of `part_001` 310-377. -/
def getCustomAIResponse : Option String → Option String → (String → FetchOutcome) →
    QueryResult × List String :=
  dispatch makeCustomAPICall

/-- JS guard `!x || x.trim().length === 0` on a possibly-absent string. -/
def jsBlank (x : Option String) : Bool :=
  match x with
  | none => true
  | some s => s.isEmpty || (jsTrim s).isEmpty

/-- The `AI_QUERY` branch of the message listener
(`src/background.js` 170-196): reject blank text without dispatching,
otherwise dispatch. -/
def handleQuery (text : Option String) (storedKey storedModel : Option String)
    (env : String → FetchOutcome) : QueryResult × List String :=
  if jsBlank text then
    ({ success := false, error := some "No text selected" }, [])
  else
    getAIResponse storedKey storedModel env

/-- The `AI_QUERY_CUSTOM` branch of the message listener (`part_001`
198-231, identically `part_002` 156-189): reject blank text first, then
a blank question, otherwise dispatch the custom query. -/
def handleCustomQuery (text question : Option String)
    (storedKey storedModel : Option String) (env : String → FetchOutcome) :
    QueryResult × List String :=
  if jsBlank text then
    ({ success := false, error := some "No text selected" }, [])
  else if jsBlank question then
    ({ success := false, error := some "No question provided" }, [])
  else
    getCustomAIResponse storedKey storedModel env

/-! ## Concrete environments used by the witness theorems -/

/-- C1 run: stored model defaults, the first two Gemini models
rate-limit, the third answers. -/
def envW1 : String → FetchOutcome := fun m =>
  if m = "gemini-3-flash-preview" then FetchOutcome.http 200 none (some "All-good")
  else FetchOutcome.http 429 none none

/-- C2(a) run: 429 on the selected model, 500 with a body message on
the second model; the third is never called. -/
def envW2a : String → FetchOutcome := fun m =>
  if m = "gemini-2.5-flash" then FetchOutcome.http 500 (some "server-err") none
  else FetchOutcome.http 429 none none

/-- C2(b) run: every model rate-limits. -/
def envW2b : String → FetchOutcome := fun _ =>
  FetchOutcome.http 429 none none

/-- C3 run: a transport failure on the first attempt. -/
def envW3 : String → FetchOutcome := fun _ =>
  FetchOutcome.transport (some "network-down")

/-- C4 environment (never reached: no call is made). -/
def envW4 : String → FetchOutcome := fun _ =>
  FetchOutcome.http 200 none (some "unreached")

/-- C5 run: every model answers 200 with a payload text. -/
def envW5 : String → FetchOutcome := fun _ =>
  FetchOutcome.http 200 none (some "Plants convert light")

/-- C6 environment (never reached: the listener rejects the request). -/
def envW6 : String → FetchOutcome := fun _ =>
  FetchOutcome.http 200 none (some "unreached")

/-! ## Request construction

The shape of the outbound HTTP requests, per provider.  `src/background.js`
and `part_001` target the Gemini API (credential in the URL query string —
the provider-equivalent of the Authorization header), `part_002` targets
the Groq OpenAI-compatible API (credential in an `Authorization: Bearer`
header, explicit system/user chat messages).  Temperatures are the exact
rationals of the JS literals. -/

/-- One `{role, content}` chat message of the OpenAI-style body. -/
structure ChatMessage where
  role : String
  content : String
  deriving Repr, DecidableEq

/-- One `{text}` part of a Gemini `contents` entry. -/
structure GeminiPart where
  text : String
  deriving Repr, DecidableEq

/-- The `generationConfig` object sent to Gemini. -/
structure GenerationConfig where
  temperature : ℚ
  maxOutputTokens : Nat
  deriving Repr, DecidableEq

/-- A Gemini `generateContent` request as built by `makeAPICall` /
`makeCustomAPICall` (`src/background.js` 35-58, `part_001` 243-267). -/
structure GeminiRequest where
  method : String
  url : String
  contentType : String
  contents : List (List GeminiPart)
  generationConfig : GenerationConfig
  deriving Repr, DecidableEq

/-- A Groq chat-completion request as built by `part_002`
(`part_002` 24-50 and 200-228). -/
structure GroqRequest where
  method : String
  url : String
  contentType : String
  authorization : String
  model : String
  messages : List ChatMessage
  temperature : ℚ
  maxTokens : Nat
  deriving Repr, DecidableEq

/-- The explain-prompt template of `src/background.js` 36: fixed
instruction text followed by the quoted selected text. -/
def geminiExplainInstruction : String :=
  "Explain the following text clearly and simply, assuming no context beyond the text itself. If it is unclear or incomplete, briefly say so without guessing. Respond only with the explanation, in plain and concise text."

/-- The prompt string `makeAPICall` interpolates (`src/background.js` 36). -/
def geminiPrompt (text : String) : String :=
  geminiExplainInstruction ++ "\n\n\"" ++ text ++ "\""

/-- The custom-question prompt of `part_001` 245: quoted text, then the
question, inside a fixed instruction template. -/
def geminiCustomPrompt (text question : String) : String :=
  "Given the following text:\n\n\"" ++ text ++
    "\"\n\nAnswer this question about it or Use the following text as Context: " ++
    question ++ "\n\nExplain and give a clear, helpful answer in plain text."

/-- The request `makeAPICall` sends (`src/background.js` 35-58):
`POST` to the model endpoint with the API key in the query string,
a single content part holding the prompt, temperature 0.7 and
`maxOutputTokens` 1000. -/
def buildGeminiRequest (text apiKey model : String) : GeminiRequest :=
  { method := "POST"
    url := "https://generativelanguage.googleapis.com/v1beta/models/" ++ model ++
      ":generateContent?key=" ++ apiKey
    contentType := "application/json"
    contents := [[{ text := geminiPrompt text }]]
    generationConfig := { temperature := 7 / 10, maxOutputTokens := 1000 } }

/-- The request `makeCustomAPICall` of `part_001` sends (243-267). -/
def buildGeminiCustomRequest (text question apiKey model : String) : GeminiRequest :=
  { method := "POST"
    url := "https://generativelanguage.googleapis.com/v1beta/models/" ++ model ++
      ":generateContent?key=" ++ apiKey
    contentType := "application/json"
    contents := [[{ text := geminiCustomPrompt text question }]]
    generationConfig := { temperature := 7 / 10, maxOutputTokens := 1000 } }

/-- The fixed system instruction of `part_002` `makeAPICall` (26-27). -/
def groqSystemInstruction : String :=
  "Explain the user\x27s text clearly for a beginner. Respond with the explanation only in plain text. Do not ask questions or request more input."

/-- The fixed system instruction of `part_002` `makeCustomAPICall` (202-203). -/
def groqCustomSystemInstruction : String :=
  "You will receive a PASSAGE and a FOLLOWUP. The FOLLOWUP may be (a) a direct question about the passage or (b) extra context/instructions for how to explain it. Respond immediately with a helpful answer/explanation that uses the PASSAGE as the main context and respects the FOLLOWUP. If the passage is short, still answer as best you can. Plain text only. Never ask the user to provide the passage/followup and never say you\x27re ready for input."

/-- The user content of `part_002` `makeCustomAPICall` (222): the
selected text augmented with the question. -/
def groqCustomUserContent (text question : String) : String :=
  "PASSAGE:\n" ++ text ++ "\n\nFOLLOWUP (question or context):\n" ++ question

/-- The request `part_002` `makeAPICall` sends (24-50): `POST` with a
Bearer credential header, a system message and the selected text as the
user message, temperature 0.7 and `max_tokens` 1000. -/
def buildGroqRequest (text apiKey : String) : GroqRequest :=
  { method := "POST"
    url := "https://api.groq.com/openai/v1/chat/completions"
    contentType := "application/json"
    authorization := "Bearer " ++ apiKey
    model := "llama-3.1-8b-instant"
    messages := [{ role := "system", content := groqSystemInstruction },
                 { role := "user", content := text }]
    temperature := 7 / 10
    maxTokens := 1000 }

/-- The request `part_002` `makeCustomAPICall` sends (200-228). -/
def buildGroqCustomRequest (text question apiKey : String) : GroqRequest :=
  { method := "POST"
    url := "https://api.groq.com/openai/v1/chat/completions"
    contentType := "application/json"
    authorization := "Bearer " ++ apiKey
    model := "llama-3.1-8b-instant"
    messages := [{ role := "system", content := groqCustomSystemInstruction },
                 { role := "user", content := groqCustomUserContent text question }]
    temperature := 7 / 10
    maxTokens := 1000 }

/-! ## Basic lemmas about the helpers -/

theorem ne_empty_of_isEmpty_false {s : String} (h : s.isEmpty = false) : s ≠ "" := by
  intro heq
  subst heq
  exact absurd h (by decide)

theorem isEmpty_false_of_ne_empty {s : String} (h : s ≠ "") : s.isEmpty = false := by
  cases hi : s.isEmpty
  · rfl
  · exact absurd ((String.isEmpty_iff s).mp hi) h

theorem str_append_ne_empty (s t : String) (h : s ≠ "") : s ++ t ≠ "" := by
  intro heq
  apply h
  have hd := congrArg String.data heq
  simp only [String.data_append] at hd
  have hnil : s.data = [] := (List.append_eq_nil.mp (by simpa using hd)).1
  cases s
  simp_all

theorem jsOrStr_ne_empty (x : Option String) (d : String) (hd : d ≠ "") :
    jsOrStr x d ≠ "" := by
  cases x with
  | none => exact hd
  | some s =>
    simp only [jsOrStr]
    split
    · exact hd
    · rename_i hs
      exact ne_empty_of_isEmpty_false (Bool.of_not_eq_true hs)

theorem jsOrStr_some_of_ne_empty {s : String} (d : String) (h : s ≠ "") :
    jsOrStr (some s) d = s := by
  simp only [jsOrStr, isEmpty_false_of_ne_empty h]
  simp

/-- The generic non-2xx error message is never empty. -/
theorem generic_error_ne_empty (status : Nat) :
    ("API request failed with status " ++ toString status) ≠ "" :=
  str_append_ne_empty _ _ (by decide)

/-! ## Shape lemmas about `makeAPICall` -/

/-- A successful `makeAPICall` result is exactly a success record holding
a non-empty trimmed response and nothing else. -/
theorem makeAPICall_success_shape (o : FetchOutcome)
    (h : (makeAPICall o).success = true) :
    ∃ t, t ≠ "" ∧ makeAPICall o = { success := true, response := some t } := by
  cases o with
  | transport msg => simp [makeAPICall] at h
  | http status errMsg textBody =>
    simp only [makeAPICall] at h ⊢
    split at h
    · simp at h
    · cases textBody with
      | none => simp at h
      | some s =>
        simp only [Option.map_some'] at h ⊢
        split at h
        · simp at h
        · rename_i hcond ht
          refine ⟨jsTrim s, ne_empty_of_isEmpty_false (Bool.of_not_eq_true ht), ?_⟩
          simp only [hcond]
          simp [ht]

/-- A failed `makeAPICall` result always carries a non-empty error
message and no response. -/
theorem makeAPICall_fail_shape (o : FetchOutcome)
    (h : (makeAPICall o).success = false) :
    ∃ e, e ≠ "" ∧ (makeAPICall o).error = some e ∧
      (makeAPICall o).response = none := by
  cases o with
  | transport msg =>
    exact ⟨_, jsOrStr_ne_empty _ _ (by decide), rfl, rfl⟩
  | http status errMsg textBody =>
    simp only [makeAPICall]
    split
    · exact ⟨_, jsOrStr_ne_empty _ _ (generic_error_ne_empty status), rfl, rfl⟩
    · rename_i hok
      cases textBody with
      | none => exact ⟨_, by decide, rfl, rfl⟩
      | some s =>
        simp only [Option.map_some']
        split
        · exact ⟨_, by decide, rfl, rfl⟩
        · rename_i ht
          exfalso
          simp only [makeAPICall, Option.map_some'] at h
          rw [if_neg hok, if_neg ht] at h
          simp at h

/-! ## Lemmas about the fallback loop -/

theorem fallbackLoop_cons_success (call : FetchOutcome → QueryResult)
    (env : String → FetchOutcome) (m : String) (rest : List String)
    (prev : QueryResult) (h : (call (env m)).success = true) :
    fallbackLoop call env (m :: rest) prev = (call (env m), some m, [m]) := by
  simp [fallbackLoop, h]

theorem fallbackLoop_cons_abort (call : FetchOutcome → QueryResult)
    (env : String → FetchOutcome) (m : String) (rest : List String)
    (prev : QueryResult) (h1 : (call (env m)).success = false)
    (h2 : (call (env m)).statusCode ≠ some 429) :
    fallbackLoop call env (m :: rest) prev = (call (env m), none, [m]) := by
  simp [fallbackLoop, h1, h2]

theorem fallbackLoop_cons_continue (call : FetchOutcome → QueryResult)
    (env : String → FetchOutcome) (m : String) (rest : List String)
    (prev : QueryResult) (h1 : (call (env m)).success = false)
    (h2 : (call (env m)).statusCode = some 429) :
    fallbackLoop call env (m :: rest) prev =
      ((fallbackLoop call env rest (call (env m))).1,
       (fallbackLoop call env rest (call (env m))).2.1,
       m :: (fallbackLoop call env rest (call (env m))).2.2) := by
  simp [fallbackLoop, h1, h2]

/-- When every model before `m` rate-limits and `m` succeeds, the loop
stops at `m` with exactly the models up to `m` called. -/
theorem fallbackLoop_finds_success (call : FetchOutcome → QueryResult)
    (env : String → FetchOutcome) (pre post : List String) (m : String)
    (prev : QueryResult)
    (hpre : ∀ c ∈ pre, fails429 (call (env c)))
    (hm : (call (env m)).success = true) :
    fallbackLoop call env (pre ++ m :: post) prev =
      (call (env m), some m, pre ++ [m]) := by
  induction pre generalizing prev with
  | nil => simpa using fallbackLoop_cons_success call env m post prev hm
  | cons c cs ih =>
    have hc := hpre c (by simp)
    rw [List.cons_append,
      fallbackLoop_cons_continue call env c (cs ++ m :: post) prev hc.1 hc.2,
      ih (call (env c)) (fun x hx => hpre x (List.mem_cons_of_mem c hx))]
    simp

/-- When every model before `m` rate-limits and `m` fails with a
non-429 status, the loop breaks at `m` with exactly the models up to
`m` called and `m`'s failure as the loop result. -/
theorem fallbackLoop_finds_abort (call : FetchOutcome → QueryResult)
    (env : String → FetchOutcome) (pre post : List String) (m : String)
    (prev : QueryResult)
    (hpre : ∀ c ∈ pre, fails429 (call (env c)))
    (hm1 : (call (env m)).success = false)
    (hm2 : (call (env m)).statusCode ≠ some 429) :
    fallbackLoop call env (pre ++ m :: post) prev =
      (call (env m), none, pre ++ [m]) := by
  induction pre generalizing prev with
  | nil => simpa using fallbackLoop_cons_abort call env m post prev hm1 hm2
  | cons c cs ih =>
    have hc := hpre c (by simp)
    rw [List.cons_append,
      fallbackLoop_cons_continue call env c (cs ++ m :: post) prev hc.1 hc.2,
      ih (call (env c)) (fun x hx => hpre x (List.mem_cons_of_mem c hx))]
    simp

/-- When every candidate rate-limits, the loop exhausts the whole list
and ends holding the last attempt's failure. -/
theorem fallbackLoop_exhausts (call : FetchOutcome → QueryResult)
    (env : String → FetchOutcome) (init : List String) (lastM : String)
    (prev : QueryResult)
    (hall : ∀ c ∈ init ++ [lastM], fails429 (call (env c))) :
    fallbackLoop call env (init ++ [lastM]) prev =
      (call (env lastM), none, init ++ [lastM]) := by
  induction init generalizing prev with
  | nil =>
    have hl := hall lastM (by simp)
    rw [List.nil_append, fallbackLoop_cons_continue call env lastM [] prev hl.1 hl.2]
    simp [fallbackLoop]
  | cons c cs ih =>
    have hc := hall c (by simp)
    rw [List.cons_append,
      fallbackLoop_cons_continue call env c (cs ++ [lastM]) prev hc.1 hc.2,
      ih (call (env c)) (fun x hx => hall x (by simp [List.mem_append] at hx ⊢; tauto))]

/-- The models the loop calls form a sublist of its candidate list. -/
theorem fallbackLoop_trace_sub (call : FetchOutcome → QueryResult)
    (env : String → FetchOutcome) (models : List String) (prev : QueryResult) :
    List.Sublist (fallbackLoop call env models prev).2.2 models := by
  induction models generalizing prev with
  | nil => simp [fallbackLoop]
  | cons m rest ih =>
    rcases Bool.eq_false_or_eq_true ((call (env m)).success) with hs | hs
    · rw [fallbackLoop_cons_success call env m rest prev hs]
      simp
    · by_cases h429 : (call (env m)).statusCode = some 429
      · rw [fallbackLoop_cons_continue call env m rest prev hs h429]
        exact (ih (call (env m))).cons₂ m
      · rw [fallbackLoop_cons_abort call env m rest prev hs h429]
        simp

/-- If the loop reports an in-loop success on `m`, its result is the
successful call to `m`. -/
theorem fallbackLoop_some_success (call : FetchOutcome → QueryResult)
    (env : String → FetchOutcome) (models : List String) (prev : QueryResult)
    (m : String) (h : (fallbackLoop call env models prev).2.1 = some m) :
    (fallbackLoop call env models prev).1 = call (env m) ∧
      (call (env m)).success = true := by
  induction models generalizing prev with
  | nil => simp [fallbackLoop] at h
  | cons c rest ih =>
    rcases Bool.eq_false_or_eq_true ((call (env c)).success) with hs | hs
    · rw [fallbackLoop_cons_success call env c rest prev hs] at h ⊢
      simp only at h
      obtain rfl : c = m := by simpa using h
      exact ⟨rfl, hs⟩
    · by_cases h429 : (call (env c)).statusCode = some 429
      · rw [fallbackLoop_cons_continue call env c rest prev hs h429] at h ⊢
        exact ih (call (env c)) h
      · rw [fallbackLoop_cons_abort call env c rest prev hs h429] at h
        simp at h

/-! ## Scenario lemmas about the dispatcher -/

theorem dispatch_no_key (call : FetchOutcome → QueryResult)
    (storedKey storedModel : Option String) (env : String → FetchOutcome)
    (h : jsStrOrNone storedKey = none) :
    dispatch call storedKey storedModel env =
      ({ success := false, error := some apiKeyNotConfiguredMsg }, []) := by
  simp [dispatch, h]

theorem dispatch_first_success (call : FetchOutcome → QueryResult)
    (storedKey storedModel : Option String) (env : String → FetchOutcome)
    (key : String) (hkey : jsStrOrNone storedKey = some key)
    (hs : (call (env (selectedModelOf storedModel))).success = true) :
    dispatch call storedKey storedModel env =
      ({ call (env (selectedModelOf storedModel)) with
          modelUsed := some (selectedModelOf storedModel) },
        [selectedModelOf storedModel]) := by
  simp [dispatch, hkey, hs]

theorem dispatch_first_fail_non429 (call : FetchOutcome → QueryResult)
    (storedKey storedModel : Option String) (env : String → FetchOutcome)
    (key : String) (hkey : jsStrOrNone storedKey = some key)
    (hf : (call (env (selectedModelOf storedModel))).success = false)
    (h429 : (call (env (selectedModelOf storedModel))).statusCode ≠ some 429) :
    dispatch call storedKey storedModel env =
      ({ success := false,
          error := some (jsOrStr (call (env (selectedModelOf storedModel))).error failedMsg) },
        [selectedModelOf storedModel]) := by
  simp [dispatch, hkey, hf, h429]

theorem dispatch_429_fallback_success (call : FetchOutcome → QueryResult)
    (storedKey storedModel : Option String) (env : String → FetchOutcome)
    (key : String) (pre post : List String) (m : String)
    (hkey : jsStrOrNone storedKey = some key)
    (hsplit : AVAILABLE_MODELS.filter (fun x => x != selectedModelOf storedModel)
      = pre ++ m :: post)
    (hfirst : fails429 (call (env (selectedModelOf storedModel))))
    (hpre : ∀ c ∈ pre, fails429 (call (env c)))
    (hm : (call (env m)).success = true) :
    dispatch call storedKey storedModel env =
      ({ call (env m) with modelUsed := some m },
        selectedModelOf storedModel :: (pre ++ [m])) := by
  have hfb := fallbackLoop_finds_success call env pre post m
    (call (env (selectedModelOf storedModel))) hpre hm
  simp [dispatch, hkey, hfirst.1, hfirst.2, hsplit, hfb]

theorem dispatch_429_fallback_abort (call : FetchOutcome → QueryResult)
    (storedKey storedModel : Option String) (env : String → FetchOutcome)
    (key : String) (pre post : List String) (m : String)
    (hkey : jsStrOrNone storedKey = some key)
    (hsplit : AVAILABLE_MODELS.filter (fun x => x != selectedModelOf storedModel)
      = pre ++ m :: post)
    (hfirst : fails429 (call (env (selectedModelOf storedModel))))
    (hpre : ∀ c ∈ pre, fails429 (call (env c)))
    (hm1 : (call (env m)).success = false)
    (hm2 : (call (env m)).statusCode ≠ some 429) :
    dispatch call storedKey storedModel env =
      ({ success := false, error := some (jsOrStr (call (env m)).error failedMsg) },
        selectedModelOf storedModel :: (pre ++ [m])) := by
  have hfb := fallbackLoop_finds_abort call env pre post m
    (call (env (selectedModelOf storedModel))) hpre hm1 hm2
  simp [dispatch, hkey, hfirst.1, hfirst.2, hsplit, hfb]

theorem dispatch_429_exhaust (call : FetchOutcome → QueryResult)
    (storedKey storedModel : Option String) (env : String → FetchOutcome)
    (key : String) (init : List String) (lastM : String)
    (hkey : jsStrOrNone storedKey = some key)
    (hsplit : AVAILABLE_MODELS.filter (fun x => x != selectedModelOf storedModel)
      = init ++ [lastM])
    (hfirst : fails429 (call (env (selectedModelOf storedModel))))
    (hall : ∀ c ∈ init ++ [lastM], fails429 (call (env c))) :
    dispatch call storedKey storedModel env =
      ({ success := false, error := some (jsOrStr (call (env lastM)).error failedMsg) },
        selectedModelOf storedModel :: (init ++ [lastM])) := by
  have hfb := fallbackLoop_exhausts call env init lastM
    (call (env (selectedModelOf storedModel))) hall
  simp [dispatch, hkey, hfirst.1, hfirst.2, hsplit, hfb]

theorem dispatch_429_loop_some (call : FetchOutcome → QueryResult)
    (storedKey storedModel : Option String) (env : String → FetchOutcome)
    (key m : String) (hkey : jsStrOrNone storedKey = some key)
    (hfirst : fails429 (call (env (selectedModelOf storedModel))))
    (ho : (fallbackLoop call env
        (AVAILABLE_MODELS.filter (fun x => x != selectedModelOf storedModel))
        (call (env (selectedModelOf storedModel)))).2.1 = some m) :
    dispatch call storedKey storedModel env =
      ({ (fallbackLoop call env
            (AVAILABLE_MODELS.filter (fun x => x != selectedModelOf storedModel))
            (call (env (selectedModelOf storedModel)))).1 with modelUsed := some m },
        selectedModelOf storedModel ::
          (fallbackLoop call env
            (AVAILABLE_MODELS.filter (fun x => x != selectedModelOf storedModel))
            (call (env (selectedModelOf storedModel)))).2.2) := by
  simp [dispatch, hkey, hfirst.1, hfirst.2, ho]

theorem dispatch_429_loop_none (call : FetchOutcome → QueryResult)
    (storedKey storedModel : Option String) (env : String → FetchOutcome)
    (key : String) (hkey : jsStrOrNone storedKey = some key)
    (hfirst : fails429 (call (env (selectedModelOf storedModel))))
    (ho : (fallbackLoop call env
        (AVAILABLE_MODELS.filter (fun x => x != selectedModelOf storedModel))
        (call (env (selectedModelOf storedModel)))).2.1 = none) :
    dispatch call storedKey storedModel env =
      ({ success := false,
          error := some (jsOrStr (fallbackLoop call env
            (AVAILABLE_MODELS.filter (fun x => x != selectedModelOf storedModel))
            (call (env (selectedModelOf storedModel)))).1.error failedMsg) },
        selectedModelOf storedModel ::
          (fallbackLoop call env
            (AVAILABLE_MODELS.filter (fun x => x != selectedModelOf storedModel))
            (call (env (selectedModelOf storedModel)))).2.2) := by
  simp [dispatch, hkey, hfirst.1, hfirst.2, ho]

/-- Field discipline of every result the Gemini dispatcher can return:
a success carries a non-empty response and no error, a failure carries a
non-empty error and no response. -/
theorem dispatch_makeAPICall_wf (storedKey storedModel : Option String)
    (env : String → FetchOutcome) :
    ((dispatch makeAPICall storedKey storedModel env).1.success = true →
      ∃ t, t ≠ "" ∧ (dispatch makeAPICall storedKey storedModel env).1.response = some t ∧
        (dispatch makeAPICall storedKey storedModel env).1.error = none) ∧
    ((dispatch makeAPICall storedKey storedModel env).1.success = false →
      ∃ e, e ≠ "" ∧ (dispatch makeAPICall storedKey storedModel env).1.error = some e ∧
        (dispatch makeAPICall storedKey storedModel env).1.response = none) := by
  cases hk : jsStrOrNone storedKey with
  | none =>
    rw [dispatch_no_key makeAPICall storedKey storedModel env hk]
    exact ⟨fun h => by simp at h, fun _ => ⟨apiKeyNotConfiguredMsg, by decide, rfl, rfl⟩⟩
  | some key =>
    rcases Bool.eq_false_or_eq_true ((makeAPICall (env (selectedModelOf storedModel))).success)
      with hs | hs
    · obtain ⟨t, ht, hshape⟩ := makeAPICall_success_shape _ hs
      rw [dispatch_first_success makeAPICall storedKey storedModel env key hk hs]
      refine ⟨fun _ => ⟨t, ht, ?_, ?_⟩, fun h => ?_⟩
      · simp [hshape]
      · simp [hshape]
      · simp [hs] at h
    · by_cases h429 : (makeAPICall (env (selectedModelOf storedModel))).statusCode = some 429
      · cases ho : (fallbackLoop makeAPICall env
            (AVAILABLE_MODELS.filter (fun x => x != selectedModelOf storedModel))
            (makeAPICall (env (selectedModelOf storedModel)))).2.1 with
        | none =>
          rw [dispatch_429_loop_none makeAPICall storedKey storedModel env key hk ⟨hs, h429⟩ ho]
          exact ⟨fun h => by simp at h,
            fun _ => ⟨_, jsOrStr_ne_empty _ _ (by decide), rfl, rfl⟩⟩
        | some m =>
          obtain ⟨hres, hsm⟩ := fallbackLoop_some_success makeAPICall env _ _ m ho
          obtain ⟨t, ht, hshape⟩ := makeAPICall_success_shape _ hsm
          rw [dispatch_429_loop_some makeAPICall storedKey storedModel env key m hk ⟨hs, h429⟩ ho]
          refine ⟨fun _ => ⟨t, ht, ?_, ?_⟩, fun h => ?_⟩
          · simp [hres, hshape]
          · simp [hres, hshape]
          · simp [hres, hshape] at h
      · rw [dispatch_first_fail_non429 makeAPICall storedKey storedModel env key hk hs h429]
        exact ⟨fun h => by simp at h,
          fun _ => ⟨_, jsOrStr_ne_empty _ _ (by decide), rfl, rfl⟩⟩

/-- The trace of any dispatch is empty, just the selected model, or the
selected model followed by a sublist of the fallback candidates. -/
theorem dispatch_trace_shape (call : FetchOutcome → QueryResult)
    (storedKey storedModel : Option String) (env : String → FetchOutcome) :
    (dispatch call storedKey storedModel env).2 = [] ∨
    (dispatch call storedKey storedModel env).2 = [selectedModelOf storedModel] ∨
    ∃ tr, List.Sublist tr
        (AVAILABLE_MODELS.filter (fun x => x != selectedModelOf storedModel)) ∧
      (dispatch call storedKey storedModel env).2 = selectedModelOf storedModel :: tr := by
  cases hk : jsStrOrNone storedKey with
  | none =>
    rw [dispatch_no_key call storedKey storedModel env hk]
    exact Or.inl rfl
  | some key =>
    rcases Bool.eq_false_or_eq_true ((call (env (selectedModelOf storedModel))).success)
      with hs | hs
    · rw [dispatch_first_success call storedKey storedModel env key hk hs]
      exact Or.inr (Or.inl rfl)
    · by_cases h429 : (call (env (selectedModelOf storedModel))).statusCode = some 429
      · cases ho : (fallbackLoop call env
            (AVAILABLE_MODELS.filter (fun x => x != selectedModelOf storedModel))
            (call (env (selectedModelOf storedModel)))).2.1 with
        | none =>
          rw [dispatch_429_loop_none call storedKey storedModel env key hk ⟨hs, h429⟩ ho]
          exact Or.inr (Or.inr ⟨_, fallbackLoop_trace_sub call env _ _, rfl⟩)
        | some m =>
          rw [dispatch_429_loop_some call storedKey storedModel env key m hk ⟨hs, h429⟩ ho]
          exact Or.inr (Or.inr ⟨_, fallbackLoop_trace_sub call env _ _, rfl⟩)
      · rw [dispatch_first_fail_non429 call storedKey storedModel env key hk hs h429]
        exact Or.inr (Or.inl rfl)

/-! ## Claim theorems -/

/-- C1: when the first attempt returns 429 and, among the fallback
candidates in their fixed declared order, every candidate before `m`
also rate-limits while `m` succeeds, dispatch returns success with
`modelUsed = m`, having issued API calls for exactly the selected model
followed by the candidates up to and including `m` — none beyond. -/
theorem fallback_reaches_first_success
    (storedKey storedModel : Option String) (env : String → FetchOutcome)
    (key : String) (pre post : List String) (m : String)
    (hkey : jsStrOrNone storedKey = some key)
    (hsplit : AVAILABLE_MODELS.filter (fun x => x != selectedModelOf storedModel)
      = pre ++ m :: post)
    (hfirst : fails429 (makeAPICall (env (selectedModelOf storedModel))))
    (hpre : ∀ c ∈ pre, fails429 (makeAPICall (env c)))
    (hm : (makeAPICall (env m)).success = true) :
    (getAIResponse storedKey storedModel env).1.success = true ∧
    (getAIResponse storedKey storedModel env).1.modelUsed = some m ∧
    (getAIResponse storedKey storedModel env).2 =
      selectedModelOf storedModel :: (pre ++ [m]) := by
  have h := dispatch_429_fallback_success makeAPICall storedKey storedModel env key
    pre post m hkey hsplit hfirst hpre hm
  unfold getAIResponse
  rw [h]
  exact ⟨hm, rfl, rfl⟩

/-- Witness for C1 at the concrete environment `envW1`. -/
theorem fallback_reaches_first_success_witness :
    (getAIResponse (some "KEY") none envW1).1.success = true ∧
    (getAIResponse (some "KEY") none envW1).1.modelUsed = some "gemini-3-flash-preview" ∧
    (getAIResponse (some "KEY") none envW1).2 =
      "gemini-2.5-flash-lite" :: (["gemini-2.5-flash"] ++ ["gemini-3-flash-preview"]) :=
  fallback_reaches_first_success (some "KEY") none envW1 "KEY"
    ["gemini-2.5-flash"] [] "gemini-3-flash-preview"
    (by decide) (by decide) (by decide) (by decide) (by decide)

/-- C2: under a first-attempt 429, (a) the moment a fallback attempt
fails with a non-429 status the iteration stops there, surfacing that
attempt's failure, with no call to any later candidate; (b) if every
candidate rate-limits, the whole list is exhausted and the last
attempt's failure is returned. -/
theorem fallback_abort_and_exhaust :
    (∀ (storedKey storedModel : Option String) (env : String → FetchOutcome)
      (key : String) (pre post : List String) (m : String),
      jsStrOrNone storedKey = some key →
      AVAILABLE_MODELS.filter (fun x => x != selectedModelOf storedModel)
        = pre ++ m :: post →
      fails429 (makeAPICall (env (selectedModelOf storedModel))) →
      (∀ c ∈ pre, fails429 (makeAPICall (env c))) →
      (makeAPICall (env m)).success = false →
      (makeAPICall (env m)).statusCode ≠ some 429 →
      (getAIResponse storedKey storedModel env).1.success = false ∧
      (getAIResponse storedKey storedModel env).1.error = (makeAPICall (env m)).error ∧
      (getAIResponse storedKey storedModel env).2 =
        selectedModelOf storedModel :: (pre ++ [m])) ∧
    (∀ (storedKey storedModel : Option String) (env : String → FetchOutcome)
      (key : String) (init : List String) (lastM : String),
      jsStrOrNone storedKey = some key →
      AVAILABLE_MODELS.filter (fun x => x != selectedModelOf storedModel)
        = init ++ [lastM] →
      fails429 (makeAPICall (env (selectedModelOf storedModel))) →
      (∀ c ∈ init ++ [lastM], fails429 (makeAPICall (env c))) →
      (getAIResponse storedKey storedModel env).1.success = false ∧
      (getAIResponse storedKey storedModel env).1.error = (makeAPICall (env lastM)).error ∧
      (getAIResponse storedKey storedModel env).2 =
        selectedModelOf storedModel :: (init ++ [lastM])) := by
  constructor
  · intro storedKey storedModel env key pre post m hkey hsplit hfirst hpre hm1 hm2
    obtain ⟨e, he, herr, _⟩ := makeAPICall_fail_shape _ hm1
    have h := dispatch_429_fallback_abort makeAPICall storedKey storedModel env key
      pre post m hkey hsplit hfirst hpre hm1 hm2
    unfold getAIResponse
    rw [h]
    refine ⟨rfl, ?_, rfl⟩
    rw [herr, jsOrStr_some_of_ne_empty failedMsg he]
  · intro storedKey storedModel env key init lastM hkey hsplit hfirst hall
    have hl := hall lastM (by simp)
    obtain ⟨e, he, herr, _⟩ := makeAPICall_fail_shape _ hl.1
    have h := dispatch_429_exhaust makeAPICall storedKey storedModel env key
      init lastM hkey hsplit hfirst hall
    unfold getAIResponse
    rw [h]
    refine ⟨rfl, ?_, rfl⟩
    rw [herr, jsOrStr_some_of_ne_empty failedMsg he]

/-- Witness for C2 at the concrete environments `envW2a` and `envW2b`. -/
theorem fallback_abort_and_exhaust_witness :
    ((getAIResponse (some "KEY") none envW2a).1.success = false ∧
      (getAIResponse (some "KEY") none envW2a).1.error = some "server-err" ∧
      (getAIResponse (some "KEY") none envW2a).2 =
        "gemini-2.5-flash-lite" :: (["gemini-2.5-flash"] ++ [])) ∧
    ((getAIResponse (some "KEY") none envW2b).1.success = false ∧
      (getAIResponse (some "KEY") none envW2b).1.error =
        some "API request failed with status 429" ∧
      (getAIResponse (some "KEY") none envW2b).2 =
        "gemini-2.5-flash-lite" ::
          (["gemini-2.5-flash"] ++ ["gemini-3-flash-preview"])) := by
  constructor
  · have h := fallback_abort_and_exhaust.1 (some "KEY") none envW2a "KEY"
      [] ["gemini-3-flash-preview"] "gemini-2.5-flash"
      (by decide) (by decide) (by decide) (by decide) (by decide) (by decide)
    exact ⟨h.1, by rw [h.2.1]; decide, by rw [h.2.2]; decide⟩
  · have h := fallback_abort_and_exhaust.2 (some "KEY") none envW2b "KEY"
      ["gemini-2.5-flash"] "gemini-3-flash-preview"
      (by decide) (by decide) (by decide) (by decide)
    exact ⟨h.1, by rw [h.2.1]; decide, by rw [h.2.2]; decide⟩

/-- C3: when the first attempt fails with any status other than 429
(including a transport failure, which carries no status code at all),
no fallback is attempted: exactly one call is issued and its failure is
returned. -/
theorem first_non429_short_circuits
    (storedKey storedModel : Option String) (env : String → FetchOutcome)
    (key : String) (hkey : jsStrOrNone storedKey = some key)
    (hf : (makeAPICall (env (selectedModelOf storedModel))).success = false)
    (h429 : (makeAPICall (env (selectedModelOf storedModel))).statusCode ≠ some 429) :
    (getAIResponse storedKey storedModel env).2 = [selectedModelOf storedModel] ∧
    (getAIResponse storedKey storedModel env).1.success = false ∧
    (getAIResponse storedKey storedModel env).1.error =
      (makeAPICall (env (selectedModelOf storedModel))).error := by
  obtain ⟨e, he, herr, _⟩ := makeAPICall_fail_shape _ hf
  have h := dispatch_first_fail_non429 makeAPICall storedKey storedModel env key hkey hf h429
  unfold getAIResponse
  rw [h]
  refine ⟨rfl, rfl, ?_⟩
  rw [herr, jsOrStr_some_of_ne_empty failedMsg he]

/-- Witness for C3 at the concrete environment `envW3`. -/
theorem first_non429_short_circuits_witness :
    (getAIResponse (some "KEY") none envW3).2 = ["gemini-2.5-flash-lite"] ∧
    (getAIResponse (some "KEY") none envW3).1.success = false ∧
    (getAIResponse (some "KEY") none envW3).1.error = some "network-down" := by
  have h := first_non429_short_circuits (some "KEY") none envW3 "KEY"
    (by decide) (by decide) (by decide)
  exact ⟨by rw [h.1]; decide, h.2.1, by rw [h.2.2]; decide⟩

/-- C4: with no API key configured (absent, or stored empty, which the
settings loader collapses to absent), both dispatchers return the
credential-not-configured failure and issue zero HTTP calls. -/
theorem missing_key_zero_calls
    (storedKey storedModel : Option String) (env : String → FetchOutcome)
    (h : jsStrOrNone storedKey = none) :
    getAIResponse storedKey storedModel env =
      ({ success := false, error := some apiKeyNotConfiguredMsg }, []) ∧
    getCustomAIResponse storedKey storedModel env =
      ({ success := false, error := some apiKeyNotConfiguredMsg }, []) :=
  ⟨dispatch_no_key makeAPICall storedKey storedModel env h,
    dispatch_no_key makeCustomAPICall storedKey storedModel env h⟩

/-- Witness for C4: no stored key at all. -/
theorem missing_key_zero_calls_witness :
    getAIResponse none none envW4 =
      ({ success := false, error := some apiKeyNotConfiguredMsg }, []) ∧
    getCustomAIResponse none none envW4 =
      ({ success := false, error := some apiKeyNotConfiguredMsg }, []) :=
  missing_key_zero_calls none none envW4 (by decide)

/-- C5: every `QueryResult` a dispatcher returns populates exactly one
of the response/error fields — success implies a non-empty response and
no error, failure implies a non-empty error and no response — for both
the explain dispatcher and the custom-question dispatcher. -/
theorem dispatch_result_field_discipline
    (storedKey storedModel : Option String) (env : String → FetchOutcome) :
    ((getAIResponse storedKey storedModel env).1.success = true →
      ∃ t, t ≠ "" ∧ (getAIResponse storedKey storedModel env).1.response = some t ∧
        (getAIResponse storedKey storedModel env).1.error = none) ∧
    ((getAIResponse storedKey storedModel env).1.success = false →
      ∃ e, e ≠ "" ∧ (getAIResponse storedKey storedModel env).1.error = some e ∧
        (getAIResponse storedKey storedModel env).1.response = none) ∧
    ((getCustomAIResponse storedKey storedModel env).1.success = true →
      ∃ t, t ≠ "" ∧ (getCustomAIResponse storedKey storedModel env).1.response = some t ∧
        (getCustomAIResponse storedKey storedModel env).1.error = none) ∧
    ((getCustomAIResponse storedKey storedModel env).1.success = false →
      ∃ e, e ≠ "" ∧ (getCustomAIResponse storedKey storedModel env).1.error = some e ∧
        (getCustomAIResponse storedKey storedModel env).1.response = none) := by
  have h := dispatch_makeAPICall_wf storedKey storedModel env
  exact ⟨h.1, h.2, h.1, h.2⟩

/-- Witness for C5: a successful dispatch against `envW5` and a failed
dispatch (missing key) against the same environment. -/
theorem dispatch_result_field_discipline_witness :
    (∃ t, t ≠ "" ∧ (getAIResponse (some "KEY") none envW5).1.response = some t ∧
      (getAIResponse (some "KEY") none envW5).1.error = none) ∧
    (∃ e, e ≠ "" ∧ (getAIResponse none none envW5).1.error = some e ∧
      (getAIResponse none none envW5).1.response = none) :=
  ⟨(dispatch_result_field_discipline (some "KEY") none envW5).1 (by decide),
    (dispatch_result_field_discipline none none envW5).2.1 (by decide)⟩

/-- C7: the message listeners are total functions into `QueryResult`
data: for every request — blank text, blank question, missing
credential, transport failure, non-2xx status, empty payload included —
the answer is a value with either success, or failure plus a non-empty
error message; no error condition escapes as an exception. -/
theorem handlers_error_as_data
    (text question storedKey storedModel : Option String)
    (env : String → FetchOutcome) :
    ((handleQuery text storedKey storedModel env).1.success = true ∨
      ((handleQuery text storedKey storedModel env).1.success = false ∧
        ∃ e, e ≠ "" ∧ (handleQuery text storedKey storedModel env).1.error = some e)) ∧
    ((handleCustomQuery text question storedKey storedModel env).1.success = true ∨
      ((handleCustomQuery text question storedKey storedModel env).1.success = false ∧
        ∃ e, e ≠ "" ∧
          (handleCustomQuery text question storedKey storedModel env).1.error = some e)) := by
  have hwf := dispatch_makeAPICall_wf storedKey storedModel env
  constructor
  · unfold handleQuery
    by_cases hb : jsBlank text = true
    · rw [if_pos hb]
      exact Or.inr ⟨rfl, "No text selected", by decide, rfl⟩
    · rw [if_neg hb]
      rcases Bool.eq_false_or_eq_true ((getAIResponse storedKey storedModel env).1.success)
        with hs | hs
      · exact Or.inl hs
      · obtain ⟨e, he, herr, _⟩ := hwf.2 hs
        exact Or.inr ⟨hs, e, he, herr⟩
  · unfold handleCustomQuery
    by_cases hb : jsBlank text = true
    · rw [if_pos hb]
      exact Or.inr ⟨rfl, "No text selected", by decide, rfl⟩
    · rw [if_neg hb]
      by_cases hq : jsBlank question = true
      · rw [if_pos hq]
        exact Or.inr ⟨rfl, "No question provided", by decide, rfl⟩
      · rw [if_neg hq]
        rcases Bool.eq_false_or_eq_true
            ((getCustomAIResponse storedKey storedModel env).1.success) with hs | hs
        · exact Or.inl hs
        · obtain ⟨e, he, herr, _⟩ := hwf.2 hs
          exact Or.inr ⟨hs, e, he, herr⟩

/-- C10: no model is ever attempted twice in a dispatch: the trace of
issued calls has no duplicates, the fallback candidate list excludes
the model of the first attempt, and the total number of calls is at
most one plus the number of fallback candidates. -/
theorem dispatch_no_repeat_calls
    (storedKey storedModel : Option String) (env : String → FetchOutcome) :
    (getAIResponse storedKey storedModel env).2.Nodup ∧
    selectedModelOf storedModel ∉
      AVAILABLE_MODELS.filter (fun x => x != selectedModelOf storedModel) ∧
    (getAIResponse storedKey storedModel env).2.length ≤
      1 + (AVAILABLE_MODELS.filter (fun x => x != selectedModelOf storedModel)).length := by
  have hsel : selectedModelOf storedModel ∉
      AVAILABLE_MODELS.filter (fun x => x != selectedModelOf storedModel) := by
    intro hmem
    rw [List.mem_filter] at hmem
    simp at hmem
  have hnodup : (AVAILABLE_MODELS.filter
      (fun x => x != selectedModelOf storedModel)).Nodup :=
    List.Nodup.filter _ (by decide)
  unfold getAIResponse
  rcases dispatch_trace_shape makeAPICall storedKey storedModel env with h | h | ⟨tr, hsub, h⟩
  · rw [h]
    exact ⟨List.nodup_nil, hsel, by simp⟩
  · rw [h]
    exact ⟨List.nodup_singleton _, hsel, by simp⟩
  · rw [h]
    refine ⟨List.nodup_cons.mpr ⟨fun hmem => hsel (hsub.subset hmem), hnodup.sublist hsub⟩,
      hsel, ?_⟩
    have := hsub.length_le
    simp only [List.length_cons]
    omega

/-- C8: for a non-2xx response the failure's `statusCode` equals the
response status; its error message is the structured body message when a
non-empty one is present, and otherwise the generic
"API request failed with status <code>" message; and a 2xx response
whose payload lacks the text field yields the no-response failure. -/
theorem makeAPICall_error_reporting :
    (∀ (status : Nat) (errMsg textBody : Option String), isOk status = false →
      (makeAPICall (.http status errMsg textBody)).statusCode = some status ∧
      (makeAPICall (.http status errMsg textBody)).success = false) ∧
    (∀ (status : Nat) (textBody : Option String) (e : String),
      isOk status = false → e ≠ "" →
      (makeAPICall (.http status (some e) textBody)).error = some e) ∧
    (∀ (status : Nat) (errMsg textBody : Option String), isOk status = false →
      (errMsg = none ∨ errMsg = some "") →
      (makeAPICall (.http status errMsg textBody)).error =
        some ("API request failed with status " ++ toString status)) ∧
    (∀ (status : Nat) (errMsg : Option String), isOk status = true →
      makeAPICall (.http status errMsg none) =
        { success := false, error := some "No response received from AI" }) := by
  refine ⟨?_, ?_, ?_, ?_⟩
  · intro status errMsg textBody hok
    simp [makeAPICall, hok]
  · intro status textBody e hok he
    simp [makeAPICall, hok, jsOrStr_some_of_ne_empty _ he]
  · intro status errMsg textBody hok hgen
    rcases hgen with rfl | rfl <;>
      simp [makeAPICall, hok, jsOrStr, show ("" : String).isEmpty = true from rfl]
  · intro status errMsg hok
    simp [makeAPICall, hok]

/-- Witness for C8 at status codes 500, 503 and 200. -/
theorem makeAPICall_error_reporting_witness :
    ((makeAPICall (.http 500 (some "boom") none)).statusCode = some 500 ∧
      (makeAPICall (.http 500 (some "boom") none)).success = false) ∧
    (makeAPICall (.http 500 (some "boom") none)).error = some "boom" ∧
    (makeAPICall (.http 503 none none)).error =
      some ("API request failed with status " ++ toString 503) ∧
    makeAPICall (.http 200 none none) =
      { success := false, error := some "No response received from AI" } :=
  ⟨makeAPICall_error_reporting.1 500 (some "boom") none (by decide),
    makeAPICall_error_reporting.2.1 500 none "boom" (by decide) (by decide),
    makeAPICall_error_reporting.2.2.1 503 none none (by decide) (Or.inl rfl),
    makeAPICall_error_reporting.2.2.2 200 none (by decide)⟩

/-- C9: every outbound request either provider builds is a POST JSON
request holding the fixed instruction, the user content — the selected
text, augmented with the question in the custom flow — temperature 0.7
and a 1000-token output cap, with the credential as an
`Authorization: Bearer` header (Groq) or in the endpoint query string
(Gemini, the provider-equivalent). -/
theorem outbound_request_shape (text question apiKey model : String) :
    ((buildGeminiRequest text apiKey model).method = "POST" ∧
      (buildGeminiRequest text apiKey model).contentType = "application/json" ∧
      (buildGeminiRequest text apiKey model).url =
        "https://generativelanguage.googleapis.com/v1beta/models/" ++ model ++
          ":generateContent?key=" ++ apiKey ∧
      (buildGeminiRequest text apiKey model).contents =
        [[{ text := geminiExplainInstruction ++ "\n\n\"" ++ text ++ "\"" }]] ∧
      (buildGeminiRequest text apiKey model).generationConfig.temperature = 7 / 10 ∧
      (buildGeminiRequest text apiKey model).generationConfig.maxOutputTokens = 1000) ∧
    ((buildGroqRequest text apiKey).method = "POST" ∧
      (buildGroqRequest text apiKey).contentType = "application/json" ∧
      (buildGroqRequest text apiKey).authorization = "Bearer " ++ apiKey ∧
      (buildGroqRequest text apiKey).messages =
        [{ role := "system", content := groqSystemInstruction },
          { role := "user", content := text }] ∧
      (buildGroqRequest text apiKey).temperature = 7 / 10 ∧
      (buildGroqRequest text apiKey).maxTokens = 1000) ∧
    ((buildGeminiCustomRequest text question apiKey model).method = "POST" ∧
      (buildGeminiCustomRequest text question apiKey model).contents =
        [[{ text := geminiCustomPrompt text question }]] ∧
      (buildGeminiCustomRequest text question apiKey model).generationConfig =
        { temperature := 7 / 10, maxOutputTokens := 1000 } ∧
      (buildGroqCustomRequest text question apiKey).method = "POST" ∧
      (buildGroqCustomRequest text question apiKey).authorization = "Bearer " ++ apiKey ∧
      (buildGroqCustomRequest text question apiKey).messages =
        [{ role := "system", content := groqCustomSystemInstruction },
          { role := "user", content :=
            "PASSAGE:\n" ++ text ++ "\n\nFOLLOWUP (question or context):\n" ++ question }] ∧
      (buildGroqCustomRequest text question apiKey).temperature = 7 / 10 ∧
      (buildGroqCustomRequest text question apiKey).maxTokens = 1000) :=
  ⟨⟨rfl, rfl, rfl, rfl, rfl, rfl⟩, ⟨rfl, rfl, rfl, rfl, rfl, rfl⟩,
    ⟨rfl, rfl, rfl, rfl, rfl, rfl, rfl, rfl⟩⟩

/-- C6 counterexample: with both the selected text and the question
blank, the listener answers with the missing-text error, not the
question-required one — the text guard runs first — refuting the
claim's "regardless of the value of the selected text". -/
theorem custom_blank_question_counterexample :
    (handleCustomQuery (some "") (some "") (some "KEY") none envW6).1.error =
      some "No text selected" ∧
    (handleCustomQuery (some "") (some "") (some "KEY") none envW6).1.error ≠
      some "No question provided" := by
  constructor
  · decide
  · decide

/-- C6 amended: a custom-question request whose question is absent or
blank after trimming is rejected with no HTTP call issued; the error is
the question-required message whenever the selected text is itself
non-blank (a blank text is reported first instead). -/
theorem custom_blank_question_rejected
    (text question storedKey storedModel : Option String)
    (env : String → FetchOutcome) (hq : jsBlank question = true) :
    (handleCustomQuery text question storedKey storedModel env).2 = [] ∧
    (handleCustomQuery text question storedKey storedModel env).1.success = false ∧
    (jsBlank text = false →
      (handleCustomQuery text question storedKey storedModel env).1.error =
        some "No question provided") := by
  unfold handleCustomQuery
  by_cases hb : jsBlank text = true
  · rw [if_pos hb]
    exact ⟨rfl, rfl, fun hf => absurd hb (by simp [hf])⟩
  · rw [if_neg hb, if_pos hq]
    exact ⟨rfl, rfl, fun _ => rfl⟩

/-- Witness for the amended C6: non-blank text, whitespace-only
question. -/
theorem custom_blank_question_rejected_witness :
    (handleCustomQuery (some "hello") (some "   ") (some "KEY") none envW6).2 = [] ∧
    (handleCustomQuery (some "hello") (some "   ") (some "KEY") none envW6).1.success
      = false ∧
    (handleCustomQuery (some "hello") (some "   ") (some "KEY") none envW6).1.error =
      some "No question provided" := by
  have h := custom_blank_question_rejected (some "hello") (some "   ") (some "KEY")
    none envW6 (by decide)
  exact ⟨h.1, h.2.1, h.2.2 (by decide)⟩

end AIHelp
